import Mathlib

/-!
Shallow embedding of the irrigation decision engine
(`controller.py`, `weather.py`) of the `manuex-master` repository.

Python `dict`/JSON values from the OpenWeatherMap provider are modelled by
the inductive `Json`; numbers are rationals, so the Python floats of the
source are exact here.  Fallible Python code (raised exceptions) is
modelled by `Except`: `AssertionError` on the lookahead guard is
`CtrlError.invalidParameter`, and the `ValueError`/`KeyError`/`IndexError`
family raised on malformed provider records is `WError.dataFormat`,
`ConnectionError` is `WError.providerUnavailable`, matching the error
taxonomy the documentation assigns to those failures.
-/

/-- A JSON value as returned by the weather provider. -/
inductive Json where
  | num (q : ℚ)
  | str (s : String)
  | obj (fields : List (String × Json))
  | arr (items : List Json)

/-- Dictionary lookup: `j[k]` when `j` is an object; `none` otherwise
(a non-dict subscript raises in Python, which callers map to an error). -/
def Json.lookup : Json → String → Option Json
  | .obj fields, key => List.lookup key fields
  | _, _ => none

/-- Python `j.get(k, d)`: the value at `k`, or the default `d`. -/
def Json.getD (j : Json) (k : String) (d : Json) : Json :=
  (j.lookup k).getD d

/-- Python truthiness of a JSON value (`not j`): zero, the empty string,
the empty dict and the empty list are falsy. -/
def Json.falsy : Json → Bool
  | .num q => q == 0
  | .str s => s == ""
  | .obj fields => fields.isEmpty
  | .arr items => items.isEmpty

/-- Errors of the weather module: `dataFormat` models the
`ValueError`/`KeyError`/`IndexError` raised on a malformed or non-success
provider response, `providerUnavailable` models `ConnectionError`. -/
inductive WError where
  | dataFormat
  | providerUnavailable
deriving DecidableEq

/-- `j[k]` as fallible access: missing key (or non-dict) raises. -/
def Json.index (j : Json) (k : String) : Except WError Json :=
  match j.lookup k with
  | some v => .ok v
  | none => .error .dataFormat

/-- Coerce to a number; anything else is a malformed record. -/
def Json.asNum : Json → Except WError ℚ
  | .num q => .ok q
  | _ => .error .dataFormat

/-- Coerce to a string; anything else is a malformed record. -/
def Json.asStr : Json → Except WError String
  | .str s => .ok s
  | _ => .error .dataFormat

/-- `j[k]` read as a number. -/
def Json.reqNum (j : Json) (k : String) : Except WError ℚ := do
  Json.asNum (← j.index k)

/-- `j[k]` read as a string. -/
def Json.reqStr (j : Json) (k : String) : Except WError String := do
  Json.asStr (← j.index k)

/-- `json.get(outer, {})[inner]` followed by a numeric read, the access
pattern `DataPoint.__init__` uses for `main.temp` and `main.humidity`. -/
def Json.reqNumIn (j : Json) (outer inner : String) : Except WError ℚ :=
  (j.getD outer (.obj [])).reqNum inner

/-- `json.get('weather', [])[0]`: first element of the weather list;
an empty or absent list raises `IndexError`. -/
def Json.weatherElem (j : Json) : Except WError Json :=
  match j.getD "weather" (.arr []) with
  | .arr (x :: _) => .ok x
  | _ => .error .dataFormat

/-- `json.get('rain', {}).get(k, {})` read as an optional number: the rain
object or sub-field being absent yields the absent state (Python stores the
falsy `{}` there), a numeric value is stored as-is. -/
def Json.rainField (j : Json) (k : String) : Option ℚ :=
  match (j.getD "rain" (.obj [])).lookup k with
  | some (.num q) => some q
  | _ => none

/-- One normalized weather observation (`weather.py`, class `DataPoint`). -/
structure DataPoint where
  dt : ℚ
  temp : ℚ
  humidity : ℚ
  id : ℚ
  description : String
  icon : String
  city_name : Json
  rain_last_hour : Option ℚ
  rain_three_hours : Option ℚ

/-- `DataPoint.__init__`: build a point from one provider record.  The
required accesses (`dt`, `main.temp`, `main.humidity`, `weather[0].id`,
`.description`, `.icon`) fail on an absent or malformed field; `name`
defaults to the empty dict; the rain fields default to absent. -/
def DataPoint.ofJson (json : Json) : Except WError DataPoint :=
  match json.reqNum "dt", json.reqNumIn "main" "temp",
        json.reqNumIn "main" "humidity", json.weatherElem with
  | .ok dt, .ok temp, .ok humidity, .ok w =>
    match w.reqNum "id", w.reqStr "description", w.reqStr "icon" with
    | .ok iq, .ok dss, .ok ics =>
      .ok { dt := dt, temp := temp, humidity := humidity, id := iq,
            description := dss, icon := ics,
            city_name := json.getD "name" (.obj []),
            rain_last_hour := json.rainField "1h",
            rain_three_hours := json.rainField "3h" }
    | _, _, _ => .error .dataFormat
  | _, _, _, _ => .error .dataFormat

/-- An ordered sequence of forecast time steps (`weather.py`, class
`Forecast`). -/
structure Forecast where
  data : List DataPoint

/-- `Forecast.__init__`: one `DataPoint` per record of the response's
`list` field, preserving order; a missing or non-list field, or any
element failing construction, fails the whole construction. -/
def Forecast.ofJson (json : Json) : Except WError Forecast :=
  match json.lookup "list" with
  | some (.arr items) => do
    let data ← items.mapM DataPoint.ofJson
    .ok ⟨data⟩
  | _ => .error .dataFormat

/-- Error of the controller: the `assert` guarding `lookahead_hours`
(the `InvalidParameterError` of the design documentation). -/
inductive CtrlError where
  | invalidParameter
deriving DecidableEq

/-- The three running accumulators of `make_decision`'s loop. -/
structure Accum where
  total_rainfall : ℚ
  max_temp : ℚ
  max_humidity : ℚ

/-- One iteration of `make_decision`'s accumulation loop over a time step:
rainfall is added when `rain_three_hours` is truthy (present and nonzero),
the maxima are updated by strict comparison. -/
def stepAccum (a : Accum) (time_step : DataPoint) : Accum :=
  { total_rainfall :=
      match time_step.rain_three_hours with
      | some r => if r ≠ 0 then a.total_rainfall + r else a.total_rainfall
      | none => a.total_rainfall
    max_temp := if a.max_temp < time_step.temp then time_step.temp else a.max_temp
    max_humidity :=
      if a.max_humidity < time_step.humidity then time_step.humidity
      else a.max_humidity }

/-- The whole accumulation loop, started from zeros. -/
def accumForecast (l : List DataPoint) : Accum :=
  l.foldl stepAccum ⟨0, 0, 0⟩

/-- The decision rule at the end of `make_decision`: dry soil waters
unless enough rain is forecast; moist soil waters only when hot, with a
dry forecast, and moisture still below 60. -/
def decide_rule (a : Accum) (sensor_moisture moisture_treshlod : ℤ)
    (steps : ℕ) : Bool :=
  if sensor_moisture < moisture_treshlod then
    decide (a.total_rainfall < 45 / 100 * (steps : ℚ))
  else if 30 < a.max_temp then
    decide (a.total_rainfall < 45 / 100 * (steps : ℚ)) &&
      decide (sensor_moisture < 60)
  else false

/-- `Controller.make_decision` (`controller.py`): assert the lookahead
window, convert hours to 3-hour steps, accumulate over the prefix of the
forecast, and apply the decision rule. -/
def make_decision (forecast : Forecast) (sensor_moisture moisture_treshlod : ℤ)
    (lookahead_hours : ℤ) : Except CtrlError Bool :=
  if 3 ≤ lookahead_hours ∧ lookahead_hours < 120 then
    let lookahead_time_steps : ℕ := lookahead_hours.toNat / 3
    .ok (decide_rule (accumForecast (forecast.data.take lookahead_time_steps))
          sensor_moisture moisture_treshlod lookahead_time_steps)
  else .error .invalidParameter

/-- The outcome of one HTTP `get` to the provider: either a
`ConnectionError` or a response whose parsed JSON body is given. -/
inductive FetchResult where
  | connError
  | ok (body : Json)

/-- The state `WeatherAPI` holds: the last successfully fetched current
observation and forecast; `none` before the first successful refresh. -/
structure WeatherState where
  current : Option DataPoint
  forecast : Option Forecast

/-- Status check of `get_weather`: the current sub-response must carry the
integer code 200. -/
def currentCodOk (j : Json) : Bool :=
  match j.lookup "cod" with
  | some (.num q) => q == 200
  | _ => false

/-- Status check of `get_weather`: the forecast sub-response must carry
the string code `"200"`. -/
def forecastCodOk (j : Json) : Bool :=
  match j.lookup "cod" with
  | some (.str s) => s == "200"
  | _ => false

/-- The validity condition `get_weather` rejects: either body falsy, or
either status code not the expected success value (a missing `cod` key
raises, which the same error models). -/
def codCheckFails (cj fj : Json) : Bool :=
  cj.falsy || fj.falsy || !currentCodOk cj || !forecastCodOk fj

/-- `WeatherAPI.get_weather` (`weather.py`): fetch the two sub-responses,
reject invalid status codes, then assign `self.current` and
`self.forecast` in sequence.  Returns the state after the call and the
error raised, if any.  Note the sequencing: `self.current` is assigned
before `Forecast` construction is attempted. -/
def get_weather (st : WeatherState) (rc rf : FetchResult) :
    WeatherState × Option WError :=
  match rc, rf with
  | .connError, _ => (st, some .providerUnavailable)
  | .ok _, .connError => (st, some .providerUnavailable)
  | .ok current_json, .ok forecast_json =>
    if codCheckFails current_json forecast_json then (st, some .dataFormat)
    else
      match DataPoint.ofJson current_json with
      | .error e => (st, some e)
      | .ok dp =>
        match Forecast.ofJson forecast_json with
        | .error e => ({ st with current := some dp }, some e)
        | .ok fc => ({ current := some dp, forecast := some fc }, none)

/-! ## Sample data for the concrete instances -/

/-- A mild time step with no rain reported. -/
def dpClear : DataPoint :=
  ⟨0, 20, 50, 800, "clear", "01d", .obj [], none, none⟩

/-- A hot time step (32 °C) with no rain reported. -/
def dpHot : DataPoint :=
  ⟨0, 32, 50, 800, "clear", "01d", .obj [], none, none⟩

/-- A sub-zero time step (−5 °C). -/
def dpCold : DataPoint :=
  ⟨0, -5, 50, 800, "snow", "13d", .obj [], none, none⟩

/-- Two observations that agree on every field except possibly
`humidity`. -/
def humidityAgnostic (d e : DataPoint) : Prop :=
  d.dt = e.dt ∧ d.temp = e.temp ∧ d.id = e.id ∧
  d.description = e.description ∧ d.icon = e.icon ∧
  d.city_name = e.city_name ∧ d.rain_last_hour = e.rain_last_hour ∧
  d.rain_three_hours = e.rain_three_hours

/-- A copy of `dpClear` with a different humidity. -/
def dpHumid : DataPoint :=
  ⟨0, 20, 90, 800, "clear", "01d", .obj [], none, none⟩

/-- The empty held state, before any successful refresh. -/
def stEmpty : WeatherState := ⟨none, none⟩

/-- A previously held current observation. -/
def dpOld : DataPoint := ⟨0, 1, 2, 800, "x", "y", .obj [], none, none⟩

/-- A previously held forecast. -/
def fcOld : Forecast := ⟨[dpOld]⟩

/-- A held state with both values present. -/
def stHeld : WeatherState := ⟨some dpOld, some fcOld⟩

/-- A well-formed current sub-response with success status 200. -/
def cjRefresh : Json :=
  .obj [("cod", .num 200), ("dt", .num 0),
        ("main", .obj [("temp", .num 25), ("humidity", .num 40)]),
        ("weather", .arr [.obj [("id", .num 800),
          ("description", .str "clear"), ("icon", .str "01d")]])]

/-- The observation `cjRefresh` builds. -/
def dpRefresh : DataPoint :=
  ⟨0, 25, 40, 800, "clear", "01d", .obj [], none, none⟩

/-- A forecast sub-response with success status `"200"` but no `list`
field, so `Forecast` construction fails. -/
def fjBadRefresh : Json := .obj [("cod", .str "200")]

/-- A provider record with no `rain` object. -/
def jNoRain : Json :=
  .obj [("dt", .num 0),
        ("main", .obj [("temp", .num 20), ("humidity", .num 50)]),
        ("weather", .arr [.obj [("id", .num 800),
          ("description", .str "clear"), ("icon", .str "01d")]]),
        ("name", .str "Eindhoven")]

/-- The observation `jNoRain` builds: both rain fields absent. -/
def dpNoRain : DataPoint :=
  ⟨0, 20, 50, 800, "clear", "01d", .str "Eindhoven", none, none⟩

/-- The same record with an explicit zero `rain.3h` value. -/
def jZeroRain : Json :=
  .obj [("dt", .num 0),
        ("main", .obj [("temp", .num 20), ("humidity", .num 50)]),
        ("weather", .arr [.obj [("id", .num 800),
          ("description", .str "clear"), ("icon", .str "01d")]]),
        ("name", .str "Eindhoven"),
        ("rain", .obj [("3h", .num 0)])]

/-- The observation `jZeroRain` builds: the explicit zero is preserved. -/
def dpZeroRain : DataPoint :=
  ⟨0, 20, 50, 800, "clear", "01d", .str "Eindhoven", none, some 0⟩

/-! ## Specification-side aggregates

The specification describes the loop's accumulators as a sum and maxima
over the considered prefix; these closed forms are proved equal to the
loop below. -/

/-- The spec's `totalRainfall`: sum of the `rain_three_hours` values that
are present, an absent value contributing 0. -/
def presentRainSum (l : List DataPoint) : ℚ :=
  (l.map (fun dp => dp.rain_three_hours.getD 0)).sum

/-- The spec's `maxTemp`: maximum of the temperatures, initialized at 0. -/
def tempMaxFromZero (l : List DataPoint) : ℚ :=
  (l.map (fun dp => dp.temp)).foldl max 0

theorem stepAccum_total_rainfall (a : Accum) (d : DataPoint) :
    (stepAccum a d).total_rainfall =
      a.total_rainfall + d.rain_three_hours.getD 0 := by
  cases hr : d.rain_three_hours with
  | none => simp [stepAccum, hr]
  | some r =>
    by_cases h0 : r = 0 <;> simp [stepAccum, hr, h0]

theorem stepAccum_max_temp (a : Accum) (d : DataPoint) :
    (stepAccum a d).max_temp = max a.max_temp d.temp := by
  rcases le_or_lt d.temp a.max_temp with h | h
  · simp [stepAccum, not_lt.mpr h, max_eq_left h]
  · simp [stepAccum, h, max_eq_right h.le]

theorem foldl_stepAccum_rain (l : List DataPoint) (a : Accum) :
    (l.foldl stepAccum a).total_rainfall = a.total_rainfall + presentRainSum l := by
  induction l generalizing a with
  | nil => simp [presentRainSum]
  | cons d t ih =>
    simp only [List.foldl_cons, ih, stepAccum_total_rainfall, presentRainSum,
      List.map_cons, List.sum_cons]
    ring

theorem foldl_stepAccum_temp (l : List DataPoint) (a : Accum) :
    (l.foldl stepAccum a).max_temp = (l.map (fun dp => dp.temp)).foldl max a.max_temp := by
  induction l generalizing a with
  | nil => simp
  | cons d t ih =>
    simp only [List.foldl_cons, ih, stepAccum_max_temp, List.map_cons]

theorem accumForecast_rain (l : List DataPoint) :
    (accumForecast l).total_rainfall = presentRainSum l := by
  simp [accumForecast, foldl_stepAccum_rain]

theorem accumForecast_temp (l : List DataPoint) :
    (accumForecast l).max_temp = tempMaxFromZero l := by
  simp [accumForecast, foldl_stepAccum_temp, tempMaxFromZero]

/-! ## The claims -/

/-- C1: with dry soil (`soilMoisture < moistureThreshold`) and a lookahead
in [3, 120), `make_decision` returns true exactly when the sum of the
present `rain_three_hours` values over the first `lookaheadHours // 3`
entries (absent values contributing 0) is below `0.45 *` that step
count. -/
theorem C1_dry_soil_rule (fc : Forecast) (sm mt lh : ℤ)
    (hdry : sm < mt) (hlo : 3 ≤ lh) (hhi : lh < 120) :
    (make_decision fc sm mt lh = .ok true ↔
      presentRainSum (fc.data.take (lh.toNat / 3)) <
        45 / 100 * ((lh.toNat / 3 : ℕ) : ℚ)) := by
  simp [make_decision, decide_rule, hlo, hhi, hdry, accumForecast_rain]

theorem C1_dry_soil_rule_witness :
    make_decision ⟨[dpClear]⟩ 30 45 3 = .ok true :=
  (C1_dry_soil_rule ⟨[dpClear]⟩ 30 45 3 (by decide) (by decide) (by decide)).mpr
    (by
      have h0 : ((3 : ℤ).toNat / 3) = 1 := rfl
      rw [h0]
      norm_num [presentRainSum, dpClear])

/-- C2: with soil at or above the threshold and a lookahead in [3, 120),
`make_decision` returns true exactly when all three hold: the
zero-initialized maximum temperature over the considered prefix exceeds
30, the rainfall sum over that prefix is below `0.45 * steps`, and the
soil moisture is below 60. -/
theorem C2_moist_soil_rule (fc : Forecast) (sm mt lh : ℤ)
    (hmoist : mt ≤ sm) (hlo : 3 ≤ lh) (hhi : lh < 120) :
    (make_decision fc sm mt lh = .ok true ↔
      (30 < tempMaxFromZero (fc.data.take (lh.toNat / 3)) ∧
        presentRainSum (fc.data.take (lh.toNat / 3)) <
          45 / 100 * ((lh.toNat / 3 : ℕ) : ℚ) ∧
        sm < 60)) := by
  have hnd : ¬ sm < mt := not_lt.mpr hmoist
  simp only [make_decision, if_pos (And.intro hlo hhi), Except.ok.injEq]
  unfold decide_rule
  rw [if_neg hnd, accumForecast_rain, accumForecast_temp]
  split
  next h => simp [h]
  next h => simp [h]

theorem C2_moist_soil_rule_witness :
    make_decision ⟨[dpHot]⟩ 50 45 3 = .ok true :=
  (C2_moist_soil_rule ⟨[dpHot]⟩ 50 45 3 (by decide) (by decide) (by decide)).mpr
    (by
      have h0 : ((3 : ℤ).toNat / 3) = 1 := rfl
      rw [h0]
      refine ⟨?_, ?_, by norm_num⟩
      · norm_num [tempMaxFromZero, dpHot, lt_max_iff]
      · norm_num [presentRainSum, dpHot])

/-- C3: `make_decision` fails with the invalid-parameter error exactly
when `lookahead_hours` lies outside [3, 120); inside the range it never
raises that error, and out of range it never silently clamps. -/
theorem C3_lookahead_guard (fc : Forecast) (sm mt lh : ℤ) :
    (make_decision fc sm mt lh = .error .invalidParameter ↔
      ¬ (3 ≤ lh ∧ lh < 120)) := by
  unfold make_decision
  split
  next h => simp [h]
  next h => simp [h]

/-- C4: when the forecast holds fewer entries than the requested step
count, `make_decision` does not fail and aggregates over all available
entries: the result is the decision rule applied to the accumulation over
the whole sequence. -/
theorem C4_short_forecast (fc : Forecast) (sm mt lh : ℤ)
    (hlo : 3 ≤ lh) (hhi : lh < 120)
    (hshort : fc.data.length < lh.toNat / 3) :
    make_decision fc sm mt lh =
      .ok (decide_rule (accumForecast fc.data) sm mt (lh.toNat / 3)) := by
  simp only [make_decision, if_pos (And.intro hlo hhi)]
  rw [List.take_of_length_le hshort.le]

theorem C4_short_forecast_witness :
    make_decision ⟨[]⟩ 30 45 6 =
      .ok (decide_rule (accumForecast []) 30 45 ((6 : ℤ).toNat / 3)) :=
  C4_short_forecast ⟨[]⟩ 30 45 6 (by decide) (by decide) (by decide)

theorem forall₂_maps {l l₂ : List DataPoint}
    (h : List.Forall₂ humidityAgnostic l l₂) :
    l.map (fun d => d.temp) = l₂.map (fun d => d.temp) ∧
    l.map (fun d => d.rain_three_hours.getD 0) =
      l₂.map (fun d => d.rain_three_hours.getD 0) := by
  induction h with
  | nil => exact ⟨rfl, rfl⟩
  | cons hd _ ih =>
    obtain ⟨-, ht, -, -, -, -, -, hr⟩ := hd
    simp only [List.map_cons, ht, hr, ih.1, ih.2, and_self]

/-- C6: the humidity values of the forecast never influence the decision:
two forecasts that agree entrywise on every field but humidity produce the
same result for all moistures, thresholds and lookaheads. -/
theorem C6_humidity_noninterference (f g : Forecast) (sm mt lh : ℤ)
    (h : List.Forall₂ humidityAgnostic f.data g.data) :
    make_decision f sm mt lh = make_decision g sm mt lh := by
  by_cases hlh : 3 ≤ lh ∧ lh < 120
  · simp only [make_decision, if_pos hlh]
    congr 1
    have hmaps := forall₂_maps h
    have hsum : presentRainSum (f.data.take (lh.toNat / 3)) =
        presentRainSum (g.data.take (lh.toNat / 3)) := by
      unfold presentRainSum
      rw [List.map_take, List.map_take, hmaps.2]
    have hmax : tempMaxFromZero (f.data.take (lh.toNat / 3)) =
        tempMaxFromZero (g.data.take (lh.toNat / 3)) := by
      unfold tempMaxFromZero
      rw [List.map_take, List.map_take, hmaps.1]
    unfold decide_rule
    rw [accumForecast_rain, accumForecast_rain, accumForecast_temp,
      accumForecast_temp, hsum, hmax]
  · simp only [make_decision, if_neg hlh]

theorem C6_humidity_noninterference_witness :
    make_decision ⟨[dpClear]⟩ 30 45 3 = make_decision ⟨[dpHumid]⟩ 30 45 3 :=
  C6_humidity_noninterference ⟨[dpClear]⟩ ⟨[dpHumid]⟩ 30 45 3
    (List.Forall₂.cons ⟨rfl, rfl, rfl, rfl, rfl, rfl, rfl, rfl⟩ List.Forall₂.nil)

theorem foldl_stepAccum_temp_nonpos (l : List DataPoint) (a : Accum)
    (h0 : 0 ≤ a.max_temp) (hneg : ∀ dp ∈ l, dp.temp < 0) :
    (l.foldl stepAccum a).max_temp = a.max_temp := by
  induction l generalizing a with
  | nil => rfl
  | cons d t ih =>
    have hd : d.temp < 0 := hneg d (List.mem_cons_self d t)
    have hstep : (stepAccum a d).max_temp = a.max_temp := by
      rw [stepAccum_max_temp, max_eq_left (hd.le.trans h0)]
    rw [List.foldl_cons, ih (stepAccum a d) (hstep ▸ h0)
      (fun dp hdp => hneg dp (List.mem_cons_of_mem d hdp)), hstep]

/-- C9: the zero-initialized maximum temperature means an all-negative
considered prefix reports 0, and consequently the moist-soil branch
(`moistureThreshold ≤ soilMoisture`) returns false on such a forecast. -/
theorem C9_all_negative_reports_zero (fc : Forecast) (sm mt lh : ℤ)
    (hlo : 3 ≤ lh) (hhi : lh < 120) (hmoist : mt ≤ sm)
    (hneg : ∀ dp ∈ fc.data.take (lh.toNat / 3), dp.temp < 0) :
    (accumForecast (fc.data.take (lh.toNat / 3))).max_temp = 0 ∧
    make_decision fc sm mt lh = .ok false := by
  have hmax : (accumForecast (fc.data.take (lh.toNat / 3))).max_temp = 0 :=
    foldl_stepAccum_temp_nonpos _ ⟨0, 0, 0⟩ le_rfl hneg
  refine ⟨hmax, ?_⟩
  simp only [make_decision, if_pos (And.intro hlo hhi)]
  unfold decide_rule
  rw [if_neg (not_lt.mpr hmoist), hmax, if_neg (by norm_num : ¬ (30 : ℚ) < 0)]

theorem C9_all_negative_reports_zero_witness :
    make_decision ⟨[dpCold]⟩ 50 45 3 = .ok false :=
  (C9_all_negative_reports_zero ⟨[dpCold]⟩ 50 45 3 (by decide) (by decide)
    (by decide)
    (by
      intro dp hdp
      have h0 : ((3 : ℤ).toNat / 3) = 1 := rfl
      rw [h0] at hdp
      simp only [List.take_succ_cons, List.take_nil, List.mem_singleton] at hdp
      rw [hdp]
      norm_num [dpCold])).2

/-- C10: on an empty forecast sequence, the decision is exactly
`soilMoisture < moistureThreshold`: the dry-soil branch always waters
(the empty rainfall sum is below the positive demand) and the moist-soil
branch never does (the zero maximum temperature is not above 30). -/
theorem C10_empty_forecast (fc : Forecast) (sm mt lh : ℤ)
    (hlo : 3 ≤ lh) (hhi : lh < 120) (hempty : fc.data = []) :
    make_decision fc sm mt lh = .ok (decide (sm < mt)) := by
  simp only [make_decision, if_pos (And.intro hlo hhi), hempty, List.take_nil]
  have hsteps : 1 ≤ lh.toNat / 3 := by
    have h3 : (3 : ℕ) ≤ lh.toNat := by
      have := Int.toNat_le_toNat hlo
      simpa using this
    calc 1 = 3 / 3 := rfl
    _ ≤ lh.toNat / 3 := Nat.div_le_div_right h3
  have hpos : (0 : ℚ) < 45 / 100 * ((lh.toNat / 3 : ℕ) : ℚ) := by
    have : (0 : ℚ) < ((lh.toNat / 3 : ℕ) : ℚ) := by
      exact_mod_cast Nat.pos_of_ne_zero (by omega)
    positivity
  unfold decide_rule accumForecast
  simp only [List.foldl_nil]
  by_cases hd : sm < mt
  · rw [if_pos hd, decide_eq_true hd]
    congr 1
    simpa using hpos
  · rw [if_neg hd, if_neg (by norm_num : ¬ (30 : ℚ) < 0)]
    simp [hd]

theorem C10_empty_forecast_witness :
    make_decision ⟨[]⟩ 30 45 3 = .ok (decide ((30 : ℤ) < 45)) :=
  C10_empty_forecast ⟨[]⟩ 30 45 3 (by decide) (by decide) rfl

theorem ofJson_rain_fields (j : Json) (dp : DataPoint)
    (h : DataPoint.ofJson j = .ok dp) :
    dp.rain_last_hour = j.rainField "1h" ∧
    dp.rain_three_hours = j.rainField "3h" := by
  unfold DataPoint.ofJson at h
  split at h
  · split at h
    · cases h
      exact ⟨rfl, rfl⟩
    · exact Except.noConfusion h
  · exact Except.noConfusion h

theorem rainField_of_no_rain (j : Json) (k : String)
    (h : j.lookup "rain" = none) : j.rainField k = none := by
  unfold Json.rainField Json.getD
  rw [h]
  rfl

theorem rainField_of_present (j r : Json) (q : ℚ) (k : String)
    (hr : j.lookup "rain" = some r) (hk : r.lookup k = some (.num q)) :
    j.rainField k = some q := by
  unfold Json.rainField Json.getD
  rw [hr, Option.getD_some, hk]

/-- C7: a `DataPoint` built from a record with no `rain` object reports
both rain fields absent (not zero), and contributes exactly 0 to the
rainfall accumulation; a numeric rain value in the record, an explicit
zero included, is preserved as-is in the corresponding field. -/
theorem C7_rain_absent_and_preserved :
    (∀ j dp, DataPoint.ofJson j = .ok dp → j.lookup "rain" = none →
      dp.rain_last_hour = none ∧ dp.rain_three_hours = none ∧
      ∀ a : Accum, (stepAccum a dp).total_rainfall = a.total_rainfall) ∧
    (∀ j r dp q, DataPoint.ofJson j = .ok dp → j.lookup "rain" = some r →
      (r.lookup "3h" = some (.num q) → dp.rain_three_hours = some q) ∧
      (r.lookup "1h" = some (.num q) → dp.rain_last_hour = some q)) := by
  constructor
  · intro j dp h hnone
    obtain ⟨h1, h3⟩ := ofJson_rain_fields j dp h
    have e1 : dp.rain_last_hour = none := by
      rw [h1, rainField_of_no_rain _ _ hnone]
    have e3 : dp.rain_three_hours = none := by
      rw [h3, rainField_of_no_rain _ _ hnone]
    refine ⟨e1, e3, fun a => ?_⟩
    rw [stepAccum_total_rainfall, e3]
    simp
  · intro j r dp q h hr
    obtain ⟨h1, h3⟩ := ofJson_rain_fields j dp h
    exact ⟨fun hk => by rw [h3, rainField_of_present j r q "3h" hr hk],
      fun hk => by rw [h1, rainField_of_present j r q "1h" hr hk]⟩

theorem C7_rain_absent_and_preserved_witness :
    (dpNoRain.rain_last_hour = none ∧ dpNoRain.rain_three_hours = none ∧
      (stepAccum ⟨1, 2, 3⟩ dpNoRain).total_rainfall = 1) ∧
    dpZeroRain.rain_three_hours = some 0 := by
  have hA := C7_rain_absent_and_preserved.1 jNoRain dpNoRain rfl rfl
  have hB := (C7_rain_absent_and_preserved.2 jZeroRain (.obj [("3h", .num 0)])
    dpZeroRain 0 rfl rfl).1 rfl
  exact ⟨⟨hA.1, hA.2.1, hA.2.2 ⟨1, 2, 3⟩⟩, hB⟩

/-- C8: a refresh over two fetched bodies succeeds only when both carry
their success status code (integer 200 for current, string `"200"` for
forecast); when either does not, the whole call fails with the
data-format error and the held state is returned unchanged. -/
theorem C8_status_code_gate (st : WeatherState) (cj fj : Json) :
    ((get_weather st (.ok cj) (.ok fj)).2 = none →
      currentCodOk cj = true ∧ forecastCodOk fj = true) ∧
    ((currentCodOk cj = false ∨ forecastCodOk fj = false) →
      get_weather st (.ok cj) (.ok fj) = (st, some .dataFormat)) := by
  have hgate : codCheckFails cj fj = true →
      get_weather st (.ok cj) (.ok fj) = (st, some .dataFormat) := by
    intro hbad
    simp [get_weather, hbad]
  constructor
  · intro hok
    by_cases hc : codCheckFails cj fj = true
    · rw [hgate hc] at hok
      exact absurd hok (by simp)
    · simp [codCheckFails] at hc
      exact ⟨by tauto, by tauto⟩
  · intro hbad
    apply hgate
    rcases hbad with h | h <;> simp [codCheckFails, h]

theorem C8_status_code_gate_witness :
    get_weather stEmpty (.ok (.obj [("cod", .str "404")]))
      (.ok (.obj [("cod", .str "200")])) = (stEmpty, some .dataFormat) :=
  (C8_status_code_gate stEmpty (.obj [("cod", .str "404")])
    (.obj [("cod", .str "200")])).2 (Or.inl rfl)

/-- C5 counterexample: with a held state, a valid current sub-response and
a forecast sub-response that passes the status check but fails `Forecast`
construction, the refresh fails — yet the held current `DataPoint` has
been replaced.  The all-or-nothing claim is false at this input. -/
theorem C5_counterexample :
    (get_weather stHeld (.ok cjRefresh) (.ok fjBadRefresh)).2 = some .dataFormat ∧
    (get_weather stHeld (.ok cjRefresh) (.ok fjBadRefresh)).1.forecast =
      stHeld.forecast ∧
    (get_weather stHeld (.ok cjRefresh) (.ok fjBadRefresh)).1.current ≠
      stHeld.current := by
  have hres : get_weather stHeld (.ok cjRefresh) (.ok fjBadRefresh) =
      (⟨some dpRefresh, some fcOld⟩, some .dataFormat) := rfl
  refine ⟨by rw [hres], by rw [hres]; rfl, ?_⟩
  rw [hres]
  intro hcontra
  simp only [stHeld, Option.some.injEq] at hcontra
  have ht := congrArg DataPoint.temp hcontra
  simp only [dpRefresh, dpOld] at ht
  norm_num at ht

/-- C5 (amended): on a failed refresh the held `Forecast` is always
retained, and the held current `DataPoint` is retained in every failure
case except one: when both status checks pass, the current `DataPoint`
constructs successfully and only the `Forecast` construction fails, the
held current observation has already been replaced by the new one. -/
theorem C5_refresh_failure_state (st : WeatherState) (rc rf : FetchResult)
    (e : WError) (hfail : (get_weather st rc rf).2 = some e) :
    (get_weather st rc rf).1.forecast = st.forecast ∧
    ((get_weather st rc rf).1.current = st.current ∨
      ∃ cj fj dp, rc = .ok cj ∧ rf = .ok fj ∧ codCheckFails cj fj = false ∧
        DataPoint.ofJson cj = .ok dp ∧
        (∃ e₂, Forecast.ofJson fj = .error e₂) ∧
        (get_weather st rc rf).1.current = some dp) := by
  cases rc with
  | connError => exact ⟨rfl, Or.inl rfl⟩
  | ok cj =>
    cases rf with
    | connError => exact ⟨rfl, Or.inl rfl⟩
    | ok fj =>
      by_cases hc : codCheckFails cj fj = true
      · have hres : get_weather st (.ok cj) (.ok fj) = (st, some .dataFormat) := by
          simp [get_weather, hc]
        rw [hres]
        exact ⟨rfl, Or.inl rfl⟩
      · have hc' : codCheckFails cj fj = false := Bool.eq_false_iff.mpr hc
        cases hdp : DataPoint.ofJson cj with
        | error e₁ =>
          have hres : get_weather st (.ok cj) (.ok fj) = (st, some e₁) := by
            simp [get_weather, hc', hdp]
          rw [hres]
          exact ⟨rfl, Or.inl rfl⟩
        | ok dp =>
          cases hfc : Forecast.ofJson fj with
          | error e₂ =>
            have hres : get_weather st (.ok cj) (.ok fj) =
                ({ st with current := some dp }, some e₂) := by
              simp [get_weather, hc', hdp, hfc]
            rw [hres]
            exact ⟨rfl, Or.inr ⟨cj, fj, dp, rfl, rfl, hc', hdp, ⟨e₂, hfc⟩, rfl⟩⟩
          | ok fc =>
            have hres : get_weather st (.ok cj) (.ok fj) =
                (⟨some dp, some fc⟩, none) := by
              simp [get_weather, hc', hdp, hfc]
            rw [hres] at hfail
            exact Option.noConfusion hfail

theorem C5_refresh_failure_state_witness :
    (get_weather stHeld .connError .connError).1.forecast = stHeld.forecast ∧
    (get_weather stHeld .connError .connError).1.current = stHeld.current :=
  ⟨(C5_refresh_failure_state stHeld .connError .connError
      .providerUnavailable rfl).1, rfl⟩
